import Mathlib

/-!
Verification of the Occasion Pricing Advisor pricing logic (src/app.py).

The numeric computations of the source are embedded over ℚ (the source
uses IEEE doubles; all factors involved are short decimal literals, which
we render as exact rationals).  Strings stay strings; the pandas calendar
DataFrame becomes a `Calendar` carrying the list of column names that are
present together with the typed rows; a missing column in the source
raises a KeyError, which we model with `Except`.
-/

namespace SmartPricing

/-- One row of the occasion calendar (the columns of `occasion_calendar.csv`). -/
structure OccasionRow where
  occasion : String
  user_type : String
  start_month : ℤ
  end_month : ℤ
  multiplier : ℚ
  notes : String
deriving DecidableEq

/-- The loaded calendar table: the column names present in the source file,
plus its typed rows.  `cols` records which columns exist, since the report
code indexes the frame by column name and a missing column is a KeyError. -/
structure Calendar where
  cols : List String
  rows : List OccasionRow
deriving DecidableEq

/-- One priced output row of the report table. -/
structure PricedRow where
  occasion : String
  start_month : ℤ
  end_month : ℤ
  multiplier : ℚ
  suggested_price : ℤ
  low : ℤ
  high : ℤ
  in_season_now : Bool
  confidence_pct : ℤ
deriving DecidableEq

/-- The result of the Generate Pricing Report block: the computed base
price and the priced rows (the code produces nothing else). -/
structure Report where
  base_price : ℚ
  rows : List PricedRow
deriving DecidableEq

/-- `material_adjust` from src/app.py: dict lookup with default 1.00. -/
def material_adjust (material_name : String) : ℚ :=
  if material_name = "Silk" then 11/10
  else if material_name = "Satin" then 107/100
  else if material_name = "Lace" then 21/20
  else if material_name = "Sequin" then 28/25
  else if material_name = "Cotton" then 1
  else if material_name = "Polyester" then 49/50
  else if material_name = "Other" then 1
  else if material_name = "Unknown" then 1
  else 1

/-- `condition_adjust` from src/app.py: a plain dict indexing
`{1:0.75, 2:0.85, 3:0.93, 4:1.00, 5:1.05}[int(score)]`, which raises a
KeyError outside 1..5 — modelled as `none`. -/
def condition_adjust (score : ℤ) : Option ℚ :=
  if score = 1 then some (3/4)
  else if score = 2 then some (17/20)
  else if score = 3 then some (93/100)
  else if score = 4 then some 1
  else if score = 5 then some (21/20)
  else none

/-- `silhouette_adjust` from src/app.py: dict lookup with default 1.00. -/
def silhouette_adjust (sil : String) : ℚ :=
  if sil = "mini" then 1
  else if sil = "midi" then 21/20
  else if sil = "gown" then 23/20
  else if sil = "set" then 51/50
  else if sil = "jumpsuit" then 19/20
  else if sil = "Unknown" then 1
  else 1

/-- `rush_weekend_multiplier` from src/app.py: starts at 1.0, multiplies by
`1 + rush_pct/100` when `days` is not None and `days <= 4`, and by
`1 + weekend_pct/100` when `weekend` holds. -/
def rush_weekend_multiplier (days : Option ℤ) (weekend : Bool)
    (rush_pct weekend_pct : ℤ) : ℚ :=
  let m : ℚ := 1
  let m : ℚ :=
    match days with
    | some d => if d ≤ 4 then m * (1 + (rush_pct : ℚ)/100) else m
    | none => m
  if weekend then m * (1 + (weekend_pct : ℚ)/100) else m

/-- The base-price computation of the Generate Pricing Report block:
`base_price = original_price * (base_pct/100)`, then successively scaled in
place by the material, condition, silhouette and rush/weekend factors.
`none` when `condition_adjust` raises. -/
def compute_base_price (original_price : ℚ) (base_pct : ℤ) (material : String)
    (condition : ℤ) (silhouette : String) (days : Option ℤ) (weekend : Bool)
    (rush_pct weekend_pct : ℤ) : Option ℚ :=
  match condition_adjust condition with
  | none => none
  | some ca =>
    let bp := original_price * ((base_pct : ℚ) / 100)
    let bp := bp * material_adjust material
    let bp := bp * ca
    let bp := bp * silhouette_adjust silhouette
    let bp := bp * rush_weekend_multiplier days weekend rush_pct weekend_pct
    some bp

/-- The in-season flag of the report block, as a function of the row bounds
and the current month:
`((start <= end) & (month >= start) & (month <= end)) |
 ((start > end) & ((month >= start) | (month <= end)))`. -/
def in_season (start_m end_m month : ℤ) : Bool :=
  (decide (start_m ≤ end_m) && (decide (month ≥ start_m) && decide (month ≤ end_m))) ||
  (decide (start_m > end_m) && (decide (month ≥ start_m) || decide (month ≤ end_m)))

/-- Rounding to an integer with ties to even, the behaviour of pandas
`Series.round(0)` (IEEE round-half-even) used for the price columns. -/
def roundHalfEven (q : ℚ) : ℤ :=
  if q - ⌊q⌋ < 1/2 then ⌊q⌋
  else if 1/2 < q - ⌊q⌋ then ⌊q⌋ + 1
  else if ⌊q⌋ % 2 = 0 then ⌊q⌋ else ⌊q⌋ + 1

/-- The confidence score of the report block: 70, +5 for Silk or Sequin in
condition ≥ 4, +5 for a gown. -/
def confidence_score (material : String) (condition : ℤ) (silhouette : String) : ℤ :=
  let conf : ℤ := 70
  let conf : ℤ :=
    if (material = "Silk" ∨ material = "Sequin") ∧ 4 ≤ condition then conf + 5 else conf
  if silhouette = "gown" then conf + 5 else conf

/-- One output row of the report table: suggested price, band and flags as
computed column-wise by the report block. -/
def price_row (base_price : ℚ) (month : ℤ) (conf : ℤ) (r : OccasionRow) : PricedRow :=
  let sp : ℤ := roundHalfEven (base_price * r.multiplier)
  { occasion := r.occasion
    start_month := r.start_month
    end_month := r.end_month
    multiplier := r.multiplier
    suggested_price := sp
    low := roundHalfEven ((sp : ℚ) * (9/10))
    high := roundHalfEven ((sp : ℚ) * (11/10))
    in_season_now := in_season r.start_month r.end_month month
    confidence_pct := conf }

/-- The user-type filter `calendar[calendar["user_type"] == user_type]` of
the report block: exact string equality; indexing a missing column raises
a KeyError. -/
def filter_by_user_type (cal : Calendar) (user_type : String) :
    Except String (List OccasionRow) :=
  if "user_type" ∈ cal.cols then
    Except.ok (cal.rows.filter (fun r => r.user_type == user_type))
  else
    Except.error "KeyError: user_type"

/-- The whole Generate Pricing Report block: base price, user-type filter,
then the priced columns over the retained rows. -/
def compute_report (cal : Calendar) (user_type : String) (month : ℤ)
    (original_price : ℚ) (base_pct : ℤ) (material : String) (condition : ℤ)
    (silhouette : String) (days : Option ℤ) (weekend : Bool)
    (rush_pct weekend_pct : ℤ) : Except String Report :=
  match compute_base_price original_price base_pct material condition silhouette
      days weekend rush_pct weekend_pct with
  | none => Except.error "KeyError: condition"
  | some bp =>
    match filter_by_user_type cal user_type with
    | Except.error e => Except.error e
    | Except.ok rows =>
      Except.ok
        { base_price := bp
          rows := rows.map (price_row bp month (confidence_score material condition silhouette)) }

/-- `display_cols` from the report block: the columns of the displayed table. -/
def display_cols : List String :=
  ["occasion", "start_month", "end_month", "multiplier",
   "suggested_price", "low", "high", "in_season_now", "confidence_%"]

/-- The built-in default calendar of `load_calendar` (the embedded
`default_csv`), with the numeric columns as pandas parses them. -/
def default_cal : Calendar :=
  { cols := ["occasion", "user_type", "start_month", "end_month", "multiplier", "notes"]
    rows :=
    [ { occasion := "homecoming", user_type := "highschool", start_month := 9,
        end_month := 10, multiplier := 5/4,
        notes := "Sept-Oct peak for short and midi dresses" }
    , { occasion := "prom", user_type := "highschool", start_month := 3,
        end_month := 5, multiplier := 27/20,
        notes := "Mar-May very high demand for gowns and sparkly minis" }
    , { occasion := "winter_formal", user_type := "highschool", start_month := 12,
        end_month := 1, multiplier := 23/20,
        notes := "Dec-Jan school formals/holiday parties" }
    , { occasion := "football_season", user_type := "college", start_month := 9,
        end_month := 11, multiplier := 23/20,
        notes := "Game days and tailgates (school colors popular)" }
    , { occasion := "date_parties", user_type := "college", start_month := 10,
        end_month := 4, multiplier := 11/10,
        notes := "Themed mixers and semi-formals" }
    , { occasion := "formals", user_type := "college", start_month := 11,
        end_month := 4, multiplier := 5/4,
        notes := "Greek life and club formals" }
    , { occasion := "rush", user_type := "college", start_month := 8,
        end_month := 8, multiplier := 6/5,
        notes := "Panhellenic recruitment (neutrals/white)" } ] }

/-- `load_calendar` from src/app.py: if the CSV file exists it is read and
returned as-is (no normalization, no validation); otherwise the built-in
default table is returned after a non-fatal `st.warning`.  The Bool is the
"using defaults" warning condition. -/
def load_calendar (source : Option Calendar) : Calendar × Bool :=
  match source with
  | some t => (t, false)
  | none => (default_cal, true)

/-- Modelled from the spec: the condition lookup table 1→0.75, 2→0.85,
3→0.93, 4→1.00, 5→1.05 as the claims state it. -/
def spec_condition_table (c : ℤ) : ℚ :=
  if c = 1 then 3/4
  else if c = 2 then 17/20
  else if c = 3 then 93/100
  else if c = 4 then 1
  else if c = 5 then 21/20
  else 1

/-- Modelled from the spec: the material factor table as the claims state
it (Silk 1.10, Satin 1.07, Lace 1.05, Sequin 1.12, Cotton 1.00,
Polyester 0.98, Other 1.00, Unknown 1.00, anything else 1.00). -/
def spec_material_table (m : String) : ℚ :=
  if m = "Silk" then 11/10
  else if m = "Satin" then 107/100
  else if m = "Lace" then 21/20
  else if m = "Sequin" then 28/25
  else if m = "Cotton" then 1
  else if m = "Polyester" then 49/50
  else if m = "Other" then 1
  else if m = "Unknown" then 1
  else 1

/-- Modelled from the spec: the silhouette factor table as the claims state
it (mini 1.00, midi 1.05, gown 1.15, set 1.02, jumpsuit 0.95, Unknown 1.00,
anything else 1.00). -/
def spec_silhouette_table (s : String) : ℚ :=
  if s = "mini" then 1
  else if s = "midi" then 21/20
  else if s = "gown" then 23/20
  else if s = "set" then 51/50
  else if s = "jumpsuit" then 19/20
  else if s = "Unknown" then 1
  else 1

/-- Modelled from the spec: the rush/weekend multiplier written as the
claim states it — `(1 + rush_pct/100)` raised to the Iverson bracket of
"days is defined and days ≤ 4", times `(1 + weekend_pct/100)` raised to
the Iverson bracket of "weekend". -/
def spec_rush_weekend (days : Option ℤ) (weekend : Bool) (rush_pct weekend_pct : ℤ) : ℚ :=
  (1 + (rush_pct : ℚ)/100) ^ (match days with
    | some d => if d ≤ 4 then 1 else 0
    | none => 0)
  * (1 + (weekend_pct : ℚ)/100) ^ (if weekend then 1 else 0)

/-- The character list of a string with surrounding spaces removed and
every character lowercased. -/
def canon_chars (s : String) : List Char :=
  (((s.data.dropWhile (fun c => c == ' ')).reverse.dropWhile
      (fun c => c == ' ')).reverse).map Char.toLower

/-- Modelled from the spec: the column-name normalization absent from the
source — case-insensitive, whitespace-trimmed matching against each
canonical name and its synonyms. -/
def normalize_col (s : String) : String :=
  let t := canon_chars s
  if t = "occasion".data ∨ t = "event".data ∨ t = "season".data then "occasion"
  else if t = "user_type".data ∨ t = "segment".data ∨ t = "school_level".data then "user_type"
  else if t = "start_month".data ∨ t = "start".data then "start_month"
  else if t = "end_month".data ∨ t = "end".data then "end_month"
  else if t = "multiplier".data ∨ t = "factor".data then "multiplier"
  else if t = "notes".data ∨ t = "comment".data then "notes"
  else String.mk t

/-- A sample calendar row used in concrete witnesses. -/
def sample_row : OccasionRow :=
  { occasion := "prom", user_type := "highschool", start_month := 3,
    end_month := 5, multiplier := 27/20, notes := "x" }

/-- A sample one-row calendar with the user_type column present. -/
def sample_cal : Calendar :=
  { cols := ["occasion", "user_type", "start_month", "end_month", "multiplier", "notes"]
    rows := [sample_row] }

/-- A calendar whose source had no user_type column. -/
def no_col_cal : Calendar :=
  { cols := ["occasion", "start_month", "end_month", "multiplier"]
    rows := [sample_row] }

/-- A calendar whose only row carries the segment "College" (capitalised). -/
def case_cal : Calendar :=
  { cols := ["occasion", "user_type", "start_month", "end_month", "multiplier", "notes"]
    rows := [ { occasion := "formals", user_type := "College", start_month := 11,
                end_month := 4, multiplier := 5/4, notes := "" } ] }

/-- A present calendar source missing the required multiplier column. -/
def bad_cal : Calendar :=
  { cols := ["occasion", "start_month", "end_month"]
    rows := [] }

/-- Round-half-even lands on a nearest integer: it never moves the value
by more than one half. -/
theorem roundHalfEven_nearest (q : ℚ) : |(roundHalfEven q : ℚ) - q| ≤ 1/2 := by
  have h1 : (⌊q⌋ : ℚ) ≤ q := Int.floor_le q
  have h2 : q < ⌊q⌋ + 1 := Int.lt_floor_add_one q
  unfold roundHalfEven
  split_ifs <;> rw [abs_le] <;> push_cast <;> constructor <;> linarith

/-- C1: for every pricing request with condition in [1,5], the base price
equals original_price scaled successively by base_pct/100, the material
factor, the condition factor, the silhouette factor and the rush/weekend
multiplier, with the factor tables exactly as the claim lists them. -/
theorem c1_base_price_factors (op : ℚ) (bpc : ℤ) (mat : String) (c : ℤ)
    (sil : String) (days : Option ℤ) (w : Bool) (rp wp : ℤ)
    (h1 : 1 ≤ c) (h2 : c ≤ 5) :
    compute_base_price op bpc mat c sil days w rp wp =
      some (op * ((bpc : ℚ)/100) * spec_material_table mat * spec_condition_table c
        * spec_silhouette_table sil * rush_weekend_multiplier days w rp wp) := by
  interval_cases c <;> rfl

/-- C1 witness at the scenario inputs of the spec. -/
theorem c1_base_price_factors_witness :
    compute_base_price 250 30 "Silk" 5 "gown" (some 3) true 10 5 =
      some (250 * ((30 : ℚ)/100) * spec_material_table "Silk" * spec_condition_table 5
        * spec_silhouette_table "gown" * rush_weekend_multiplier (some 3) true 10 5) :=
  c1_base_price_factors 250 30 "Silk" 5 "gown" (some 3) true 10 5
    (by norm_num) (by norm_num)

/-- C2: for a non-wrapping range the in-season flag holds exactly on
start ≤ month ≤ end; for a wrapping range exactly on month ≥ start or
month ≤ end; and start=12, end=1 marks exactly months 12 and 1. -/
theorem c2_in_season_ranges :
    (∀ s e m : ℤ, s ≤ e → (in_season s e m = true ↔ s ≤ m ∧ m ≤ e)) ∧
    (∀ s e m : ℤ, s > e → (in_season s e m = true ↔ m ≥ s ∨ m ≤ e)) ∧
    (∀ m : ℤ, 1 ≤ m → m ≤ 12 → (in_season 12 1 m = true ↔ m = 12 ∨ m = 1)) := by
  refine ⟨?_, ?_, ?_⟩ <;> intros <;>
    simp only [in_season, Bool.or_eq_true, Bool.and_eq_true, decide_eq_true_eq] <;>
    omega

/-- C2 witness: concrete months for a plain range, a wrapping range, and
the December–January example. -/
theorem c2_in_season_ranges_witness :
    (in_season 3 5 4 = true ↔ (3 : ℤ) ≤ 4 ∧ (4 : ℤ) ≤ 5) ∧
    (in_season 10 4 12 = true ↔ (12 : ℤ) ≥ 10 ∨ (12 : ℤ) ≤ 4) ∧
    (in_season 12 1 7 = true ↔ (7 : ℤ) = 12 ∨ (7 : ℤ) = 1) :=
  ⟨c2_in_season_ranges.1 3 5 4 (by norm_num),
   c2_in_season_ranges.2.1 10 4 12 (by norm_num),
   c2_in_season_ranges.2.2 7 (by norm_num) (by norm_num)⟩

/-- C3: the rush/weekend multiplier is the compounding product of the two
markups written with Iverson-bracket exponents; days = 4 triggers rush,
days = 5 does not, negative days still trigger, and with no event date and
no weekend the multiplier is exactly 1. -/
theorem c3_rush_weekend_compound :
    (∀ (days : Option ℤ) (w : Bool) (rp wp : ℤ),
      rush_weekend_multiplier days w rp wp = spec_rush_weekend days w rp wp) ∧
    (∀ (w : Bool) (rp wp : ℤ),
      rush_weekend_multiplier (some 4) w rp wp =
        (1 + (rp : ℚ)/100) * (if w then 1 + (wp : ℚ)/100 else 1)) ∧
    (∀ (w : Bool) (rp wp : ℤ),
      rush_weekend_multiplier (some 5) w rp wp =
        (if w then 1 + (wp : ℚ)/100 else 1)) ∧
    (∀ (d : ℤ) (w : Bool) (rp wp : ℤ), d < 0 →
      rush_weekend_multiplier (some d) w rp wp =
        (1 + (rp : ℚ)/100) * (if w then 1 + (wp : ℚ)/100 else 1)) ∧
    (∀ rp wp : ℤ, rush_weekend_multiplier none false rp wp = 1) := by
  refine ⟨?_, ?_, ?_, ?_, ?_⟩
  · intro days w rp wp
    cases days with
    | none => cases w <;> simp [rush_weekend_multiplier, spec_rush_weekend]
    | some d =>
      cases w <;> simp only [rush_weekend_multiplier, spec_rush_weekend] <;>
        split_ifs <;> simp
  · intro w rp wp
    cases w <;> simp [rush_weekend_multiplier]
  · intro w rp wp
    cases w <;> simp [rush_weekend_multiplier]
  · intro d w rp wp hd
    have h4 : d ≤ 4 := by omega
    cases w <;> simp [rush_weekend_multiplier, h4]
  · intro rp wp
    simp [rush_weekend_multiplier]

/-- C3 witness: a past event (negative days) on a weekend compounds both
markups. -/
theorem c3_rush_weekend_compound_witness :
    rush_weekend_multiplier (some (-2)) true 10 5 =
      (1 + (10 : ℚ)/100) * (if true then 1 + (5 : ℚ)/100 else 1) :=
  c3_rush_weekend_compound.2.2.2.1 (-2) true 10 5 (by norm_num)

/-- C4: every output row carries suggested_price = round(base × multiplier),
low = round(suggested × 0.90), high = round(suggested × 1.10) with
round-to-nearest (half-even, never off by more than one half), and a
confidence of 70 plus the two +5 bonuses, hence in {70, 75, 80}. -/
theorem c4_row_fields (bp : ℚ) (month : ℤ) (mat : String) (c : ℤ) (sil : String)
    (r : OccasionRow) (pr : PricedRow)
    (h : pr = price_row bp month (confidence_score mat c sil) r) :
    pr.suggested_price = roundHalfEven (bp * r.multiplier) ∧
    pr.low = roundHalfEven ((pr.suggested_price : ℚ) * (9/10)) ∧
    pr.high = roundHalfEven ((pr.suggested_price : ℚ) * (11/10)) ∧
    pr.confidence_pct = 70 + (if (mat = "Silk" ∨ mat = "Sequin") ∧ 4 ≤ c then 5 else 0)
      + (if sil = "gown" then 5 else 0) ∧
    (pr.confidence_pct = 70 ∨ pr.confidence_pct = 75 ∨ pr.confidence_pct = 80) ∧
    pr.confidence_pct ≤ 80 ∧
    (∀ q : ℚ, |(roundHalfEven q : ℚ) - q| ≤ 1/2) := by
  subst h
  refine ⟨rfl, rfl, rfl, ?_, ?_, ?_, roundHalfEven_nearest⟩ <;>
    simp only [price_row, confidence_score] <;> split_ifs <;> norm_num

/-- C4 witness at concrete inputs (Silk gown in condition 5). -/
theorem c4_row_fields_witness :
    (price_row 75 10 (confidence_score "Silk" 5 "gown") sample_row).suggested_price
      = roundHalfEven (75 * sample_row.multiplier) ∧
    (price_row 75 10 (confidence_score "Silk" 5 "gown") sample_row).low
      = roundHalfEven
          (((price_row 75 10 (confidence_score "Silk" 5 "gown") sample_row).suggested_price : ℚ)
            * (9/10)) ∧
    (price_row 75 10 (confidence_score "Silk" 5 "gown") sample_row).high
      = roundHalfEven
          (((price_row 75 10 (confidence_score "Silk" 5 "gown") sample_row).suggested_price : ℚ)
            * (11/10)) ∧
    (price_row 75 10 (confidence_score "Silk" 5 "gown") sample_row).confidence_pct
      = 70 + (if ("Silk" = "Silk" ∨ "Silk" = "Sequin") ∧ (4 : ℤ) ≤ 5 then 5 else 0)
          + (if "gown" = "gown" then 5 else 0) ∧
    ((price_row 75 10 (confidence_score "Silk" 5 "gown") sample_row).confidence_pct = 70 ∨
     (price_row 75 10 (confidence_score "Silk" 5 "gown") sample_row).confidence_pct = 75 ∨
     (price_row 75 10 (confidence_score "Silk" 5 "gown") sample_row).confidence_pct = 80) ∧
    (price_row 75 10 (confidence_score "Silk" 5 "gown") sample_row).confidence_pct ≤ 80 ∧
    (∀ q : ℚ, |(roundHalfEven q : ℚ) - q| ≤ 1/2) :=
  c4_row_fields 75 10 "Silk" 5 "gown" sample_row
    (price_row 75 10 (confidence_score "Silk" 5 "gown") sample_row) rfl

/-- C5 counterexample: with the user_type column absent the filter raises a
KeyError instead of falling back to the whole table, and a row whose
segment differs only in capitalisation is dropped instead of matching
case-insensitively or triggering a fallback. -/
theorem c5_filter_counterexample :
    filter_by_user_type no_col_cal "college" = Except.error "KeyError: user_type" ∧
    filter_by_user_type case_cal "college" = Except.ok [] := by
  constructor <;> rfl

/-- C5 amended: the filter keeps exactly the rows whose user_type equals the
requested segment under case-sensitive comparison, with no fallback — zero
matches give an empty table, and an absent user_type column is a KeyError. -/
theorem c5_filter_case_sensitive (cal : Calendar) (u : String) :
    ("user_type" ∈ cal.cols →
      ∃ l, filter_by_user_type cal u = Except.ok l ∧
        ∀ r, r ∈ l ↔ r ∈ cal.rows ∧ r.user_type = u) ∧
    ("user_type" ∉ cal.cols →
      filter_by_user_type cal u = Except.error "KeyError: user_type") := by
  constructor
  · intro hmem
    refine ⟨cal.rows.filter (fun r => r.user_type == u), ?_, ?_⟩
    · simp [filter_by_user_type, hmem]
    · intro r
      simp [List.mem_filter]
  · intro hmem
    simp [filter_by_user_type, hmem]

/-- C5 amended witness: on the sample calendar the filter keeps exactly the
highschool rows. -/
theorem c5_filter_case_sensitive_witness :
    ∃ l, filter_by_user_type sample_cal "highschool" = Except.ok l ∧
      ∀ r, r ∈ l ↔ r ∈ sample_cal.rows ∧ r.user_type = "highschool" :=
  (c5_filter_case_sensitive sample_cal "highschool").1 (by decide)

/-- C6 counterexample: the report output columns contain no standard,
conservative or premium summary values. -/
theorem c6_no_summary_counterexample :
    ¬ ("standard" ∈ display_cols ∨ "conservative" ∈ display_cols ∨
       "premium" ∈ display_cols) := by
  decide

/-- C6 amended: a successful report consists exactly of the base price and
the priced per-row table — no summary statistics are computed, and the
displayed columns are the nine per-row columns only. -/
theorem c6_report_is_table_only (cal : Calendar) (u : String) (month : ℤ)
    (op : ℚ) (bpc : ℤ) (mat : String) (c : ℤ) (sil : String) (days : Option ℤ)
    (w : Bool) (rp wp : ℤ) (bp : ℚ)
    (hbp : compute_base_price op bpc mat c sil days w rp wp = some bp)
    (hcol : "user_type" ∈ cal.cols) :
    compute_report cal u month op bpc mat c sil days w rp wp =
      Except.ok
        { base_price := bp
          rows := (cal.rows.filter (fun r => r.user_type == u)).map
            (price_row bp month (confidence_score mat c sil)) } ∧
    display_cols = ["occasion", "start_month", "end_month", "multiplier",
      "suggested_price", "low", "high", "in_season_now", "confidence_%"] := by
  constructor
  · simp [compute_report, hbp, filter_by_user_type, hcol]
  · rfl

/-- C6 amended witness at concrete inputs. -/
theorem c6_report_is_table_only_witness :
    compute_report sample_cal "highschool" 10 250 30 "Unknown" 5 "Unknown"
        none false 10 5 =
      Except.ok
        { base_price := 315/4
          rows := (sample_cal.rows.filter (fun r => r.user_type == "highschool")).map
            (price_row (315/4) 10 (confidence_score "Unknown" 5 "Unknown")) } ∧
    display_cols = ["occasion", "start_month", "end_month", "multiplier",
      "suggested_price", "low", "high", "in_season_now", "confidence_%"] :=
  c6_report_is_table_only sample_cal "highschool" 10 250 30 "Unknown" 5 "Unknown"
    none false 10 5 (315/4)
    (by simp [compute_base_price, condition_adjust, material_adjust,
          silhouette_adjust, rush_weekend_multiplier]
        norm_num)
    (by decide)

/-- C7 counterexample: when the segment filter retains zero rows the engine
returns an ok report with an empty table instead of failing with an
EmptyResultError. -/
theorem c7_empty_counterexample :
    compute_report sample_cal "college" 10 250 30 "Unknown" 5 "Unknown"
        none false 10 5 =
      Except.ok { base_price := 315/4, rows := [] } := by
  simp [compute_report, compute_base_price, condition_adjust, material_adjust,
    silhouette_adjust, rush_weekend_multiplier, filter_by_user_type,
    sample_cal, sample_row, List.filter]
  norm_num

/-- C7 amended: zero rows after filtering produce a silent ok report with an
empty row list; there is no error path for emptiness. -/
theorem c7_empty_is_silent (cal : Calendar) (u : String) (month : ℤ)
    (op : ℚ) (bpc : ℤ) (mat : String) (c : ℤ) (sil : String) (days : Option ℤ)
    (w : Bool) (rp wp : ℤ) (bp : ℚ)
    (hbp : compute_base_price op bpc mat c sil days w rp wp = some bp)
    (hcol : "user_type" ∈ cal.cols)
    (hempty : cal.rows.filter (fun r => r.user_type == u) = []) :
    compute_report cal u month op bpc mat c sil days w rp wp =
      Except.ok { base_price := bp, rows := [] } := by
  simp [compute_report, hbp, filter_by_user_type, hcol, hempty]

/-- C7 amended witness at concrete inputs. -/
theorem c7_empty_is_silent_witness :
    compute_report sample_cal "college" 11 250 30 "Unknown" 5 "Unknown"
        none false 10 5 =
      Except.ok { base_price := 315/4, rows := [] } :=
  c7_empty_is_silent sample_cal "college" 11 250 30 "Unknown" 5 "Unknown"
    none false 10 5 (315/4)
    (by simp [compute_base_price, condition_adjust, material_adjust,
          silhouette_adjust, rush_weekend_multiplier]
        norm_num)
    (by decide) (by decide)

/-- C8 counterexample: a present source whose header, even after the
normalization described by the spec, lacks the required multiplier column
is served verbatim by load_calendar with no validation failure. -/
theorem c8_no_validation_counterexample :
    "multiplier" ∉ bad_cal.cols.map normalize_col ∧
    load_calendar (some bad_cal) = (bad_cal, false) := by
  constructor
  · decide
  · rfl

/-- C8 amended: load_calendar performs no column normalization, validation
or row dropping — every present source table is returned verbatim with the
defaults flag off. -/
theorem c8_load_verbatim (t : Calendar) : load_calendar (some t) = (t, false) := rfl

/-- C9: an absent calendar source yields exactly the built-in 7-row default
dataset — the documented occasions, segments, month ranges and multipliers
— together with the non-fatal using-defaults flag. -/
theorem c9_default_dataset :
    load_calendar none = (default_cal, true) ∧
    default_cal.rows =
      [ { occasion := "homecoming", user_type := "highschool", start_month := 9,
          end_month := 10, multiplier := 5/4,
          notes := "Sept-Oct peak for short and midi dresses" }
      , { occasion := "prom", user_type := "highschool", start_month := 3,
          end_month := 5, multiplier := 27/20,
          notes := "Mar-May very high demand for gowns and sparkly minis" }
      , { occasion := "winter_formal", user_type := "highschool", start_month := 12,
          end_month := 1, multiplier := 23/20,
          notes := "Dec-Jan school formals/holiday parties" }
      , { occasion := "football_season", user_type := "college", start_month := 9,
          end_month := 11, multiplier := 23/20,
          notes := "Game days and tailgates (school colors popular)" }
      , { occasion := "date_parties", user_type := "college", start_month := 10,
          end_month := 4, multiplier := 11/10,
          notes := "Themed mixers and semi-formals" }
      , { occasion := "formals", user_type := "college", start_month := 11,
          end_month := 4, multiplier := 5/4,
          notes := "Greek life and club formals" }
      , { occasion := "rush", user_type := "college", start_month := 8,
          end_month := 8, multiplier := 6/5,
          notes := "Panhellenic recruitment (neutrals/white)" } ] ∧
    default_cal.rows.map (fun r => r.user_type) =
      ["highschool", "highschool", "highschool",
       "college", "college", "college", "college"] :=
  ⟨rfl, rfl, rfl⟩

/-- C10: the condition lookup is total on 1..5, where it returns exactly
the table value, and fails (an uncaught KeyError, modelled by none) on
every integer outside 1..5 — no clamping and no default factor. -/
theorem c10_condition_lookup :
    (∀ c : ℤ, 1 ≤ c → c ≤ 5 → condition_adjust c = some (spec_condition_table c)) ∧
    (∀ c : ℤ, c < 1 ∨ 5 < c → condition_adjust c = none) := by
  constructor
  · intro c h1 h2
    interval_cases c <;> rfl
  · intro c h
    unfold condition_adjust
    split_ifs <;> first | rfl | omega

/-- C10 witness: the in-range score 3 hits the table, the out-of-range
scores 0 and 6 fail. -/
theorem c10_condition_lookup_witness :
    condition_adjust 3 = some (spec_condition_table 3) ∧
    condition_adjust 0 = none ∧
    condition_adjust 6 = none :=
  ⟨c10_condition_lookup.1 3 (by norm_num) (by norm_num),
   c10_condition_lookup.2 0 (by norm_num),
   c10_condition_lookup.2 6 (by norm_num)⟩

end SmartPricing
